import Mathlib

/-!
# Verification of the jira-analytics categorization / aggregation core

Shallow embedding of the core pipeline of `src/report-generator.js`
(class `ReportGenerator`): issue categorization, epic grouping,
velocity metrics and work-breakdown percentages, together with proofs
of the behavioural properties stated in the design document.

Modelling conventions:

* JavaScript numbers are modelled as exact rationals (`ℚ`).  The IEEE-754
  value `NaN` (which arises in the source when `undefined` enters an
  arithmetic expression) is modelled by `none` in the type `JNum :=
  Option ℚ`: `none` is absorbing for arithmetic and every comparison
  against it is `false`, exactly like `NaN`.
* JavaScript timestamps (`Date` values produced by the source's `moment`
  shim) are modelled as milliseconds since the epoch (`Int`).  A missing
  (`undefined`) timestamp is `none : Option Int`; the shim's
  `date ? new Date(date) : new Date()` then falls back to the current
  time, which the embedding makes explicit with `jsDate`.
* JavaScript string truthiness (empty string is falsy) is captured by
  `jsTruthyStr`; `a || b` on possibly-missing strings is `jsOrOpt` /
  `jsOrStr`.
* The mutable per-run state of `forEach` loops becomes a fold over an
  explicit accumulator structure; `Array.prototype.push` becomes
  appending at the end of a list; a JavaScript `Map` becomes an
  insertion-ordered association list; a `Set` becomes a list with
  membership tests.
-/

/-! ## JavaScript value helpers -/

/-- Truthiness of a possibly-missing string: `undefined`/`null` and the
empty string are falsy, every other string is truthy. -/
def jsTruthyStr : Option String → Bool
  | some s => s ≠ ""
  | none => false

/-- `a || b` for possibly-missing strings. -/
def jsOrOpt (a b : Option String) : Option String :=
  if jsTruthyStr a then a else b

/-- `a || d` for a possibly-missing string and a present default. -/
def jsOrStr (a : Option String) (d : String) : String :=
  match a with
  | some s => if s = "" then d else s
  | none => d

/-- `t ? new Date(t) : new Date()` from the source's `moment` shim: a
missing timestamp falls back to the current time `now`. -/
def jsDate (now : Int) : Option Int → Int
  | some t => t
  | none => now

/-- Whether the character list `s` starts with the character list `p`. -/
def charsStartWith : List Char → List Char → Bool
  | _, [] => true
  | [], _ :: _ => false
  | c :: cs, p :: ps => c = p && charsStartWith cs ps

/-- Whether the character list `p` occurs (contiguously) inside `s`. -/
def charsHave : List Char → List Char → Bool
  | [], p => charsStartWith [] p
  | s@(_ :: rest), p => charsStartWith s p || charsHave rest p

/-- JavaScript `s.includes(p)`: substring test. -/
def strIncludes (s p : String) : Bool :=
  charsHave s.data p.data

/-- ASCII lower-casing of one character.  `String.prototype.toLowerCase`
agrees with this on the ASCII range, and every vocabulary word the
source compares against is ASCII. -/
def charLower (c : Char) : Char :=
  if 'A' ≤ c ∧ c ≤ 'Z' then Char.ofNat (c.toNat + 32) else c

/-- `s.toLowerCase()`. -/
def strLower (s : String) : String := ⟨s.data.map charLower⟩

/-- JavaScript `Math.round`: round half towards positive infinity. -/
def jsRound (q : ℚ) : Int := ⌊q + 1 / 2⌋

/-! ## JavaScript numbers with NaN

`none` models `NaN` (and `undefined` absorbed into arithmetic). -/

/-- A JavaScript number that may be `NaN`/`undefined`. -/
abbrev JNum := Option ℚ

/-- Addition: `NaN` (and `undefined`) is absorbing. -/
def jadd : JNum → JNum → JNum
  | some a, some b => some (a + b)
  | _, _ => none

/-- Division: `NaN` is absorbing; division by zero is non-finite and is
also mapped to `none` (the source never divides by zero on the paths
modelled here). -/
def jdiv : JNum → JNum → JNum
  | some a, some b => if b = 0 then none else some (a / b)
  | _, _ => none

/-- Multiplication by a constant: `NaN` is absorbing. -/
def jmul (a : JNum) (c : ℚ) : JNum :=
  match a with
  | some x => some (x * c)
  | none => none

/-- Strict `>`: any comparison with `NaN` is false. -/
def jgt : JNum → JNum → Bool
  | some a, some b => a > b
  | _, _ => false

/-- Strict `<`: any comparison with `NaN` is false. -/
def jlt : JNum → JNum → Bool
  | some a, some b => a < b
  | _, _ => false

/-- Truthiness of a possibly-missing number: `0`, `NaN` and `undefined`
are falsy. -/
def jsTruthyNum : JNum → Bool
  | some q => q ≠ 0
  | none => false

/-- `xs.reduce((sum, val) => sum + val, 0)` from the source. -/
def jsum (xs : List JNum) : JNum :=
  xs.foldl jadd (some 0)

/-- `Math.round(x * 10) / 10` from the source (rounding to 1 decimal);
`Math.round NaN = NaN`. -/
def jround1 : JNum → JNum
  | some q => some ((jsRound (q * 10) : ℚ) / 10)
  | none => none

/-! ## Velocity metrics (`calculateVelocityMetrics`, lines 171-220) -/

/-- One per-period velocity sample as consumed by
`calculateVelocityMetrics`: the source reads `item.storyPoints`,
`item.completedCount`, `item.sprint` and `item.weekEnding`, any of which
may be absent. -/
structure VelocityItem where
  storyPoints : JNum
  completedCount : JNum
  sprint : Option String
  weekEnding : Option String
deriving Repr, DecidableEq

/-- One `{period, value}` entry of the formatted `data` list. -/
structure PeriodValue where
  period : String
  value : JNum
deriving Repr, DecidableEq

/-- The result record of `calculateVelocityMetrics`. -/
structure VelocityMetrics where
  average : JNum
  unit : String
  trend : String
  data : List PeriodValue
deriving Repr, DecidableEq

/-- `velocityData.some(item => item.storyPoints && item.storyPoints > 0)`
(line 182): global story-point detection. -/
def hasStoryPoints (velocityData : List VelocityItem) : Bool :=
  velocityData.any fun item => jsTruthyNum item.storyPoints && jgt item.storyPoints (some 0)

/-- The metric list selected by `hasStoryPoints` (lines 185-187). -/
def valuesOf (velocityData : List VelocityItem) : List JNum :=
  velocityData.map fun item =>
    if hasStoryPoints velocityData then item.storyPoints else item.completedCount

/-- `calculateVelocityMetrics` (lines 171-220).  The argument is
`Option`-al because callers may pass `undefined`
(`!velocityData || velocityData.length === 0` guards both). -/
def calculateVelocityMetrics (velocityData : Option (List VelocityItem)) : VelocityMetrics :=
  match velocityData with
  | none => { average := some 0, unit := "items", trend := "No data available", data := [] }
  | some data =>
    if data.length = 0 then
      { average := some 0, unit := "items", trend := "No data available", data := [] }
    else
      let hsp := hasStoryPoints data
      let unit := if hsp then "story points" else "items"
      let values := valuesOf data
      let average := jround1 (jdiv (jsum values) (some (values.length : ℚ)))
      let trend :=
        if 2 ≤ values.length then
          let recent := values.drop (values.length - 2)
          let older := values.take (values.length - 2)
          if 2 ≤ recent.length ∧ 1 ≤ older.length then
            let recentAvg := jdiv (jsum recent) (some (recent.length : ℚ))
            let olderAvg := jdiv (jsum older) (some (older.length : ℚ))
            if jgt recentAvg (jmul olderAvg (11 / 10)) then "Increasing"
            else if jlt recentAvg (jmul olderAvg (9 / 10)) then "Decreasing"
            else "Stable"
          else "Stable"
        else "Stable"
      let formattedData := data.map fun item =>
        { period := jsOrStr (jsOrOpt item.sprint item.weekEnding) "Period",
          value := if hsp then item.storyPoints else item.completedCount : PeriodValue }
      { average := average, unit := unit, trend := trend, data := formattedData }

/-- The trend rule exactly as the design document words it: compare the
mean of the last 2 samples against the mean of all earlier samples, but
only when at least 2 recent and at least 1 older sample exist; otherwise
the trend stays "Stable". -/
def trendSpec (values : List JNum) : String :=
  let recent := values.drop (values.length - 2)
  let older := values.take (values.length - 2)
  if 2 ≤ recent.length ∧ 1 ≤ older.length then
    let recentMean := jdiv (jsum recent) (some (recent.length : ℚ))
    let olderMean := jdiv (jsum older) (some (older.length : ℚ))
    if jgt recentMean (jmul olderMean (11 / 10)) then "Increasing"
    else if jlt recentMean (jmul olderMean (9 / 10)) then "Decreasing"
    else "Stable"
  else "Stable"

/-- The `[{completedCount:8},{completedCount:8},{completedCount:20},{completedCount:20}]`
sample list from the design document. -/
def c5samples : List VelocityItem :=
  [{ storyPoints := none, completedCount := some 8, sprint := none, weekEnding := none },
   { storyPoints := none, completedCount := some 8, sprint := none, weekEnding := none },
   { storyPoints := none, completedCount := some 20, sprint := none, weekEnding := none },
   { storyPoints := none, completedCount := some 20, sprint := none, weekEnding := none }]

/-- Sample list with one positive story-point sample and one sample with
`storyPoints` absent. -/
def c10samples : List VelocityItem :=
  [{ storyPoints := some 5, completedCount := some 3, sprint := none, weekEnding := none },
   { storyPoints := none, completedCount := some 4, sprint := none, weekEnding := none }]

/-- C5: for every non-empty sample list, `calculateVelocityMetrics`
classifies the trend by comparing the mean of the last 2 samples against
the mean of all earlier samples, evaluated only when at least 2 recent
and at least 1 older sample exist (otherwise "Stable"): "Increasing" if
recent mean > older mean × 1.1, "Decreasing" if recent mean < older mean
× 0.9, else "Stable"; in particular completedCount samples [8,8,20,20]
yield trend "Increasing". -/
theorem C5_trend_rule :
    (∀ data : List VelocityItem, data ≠ [] →
      (calculateVelocityMetrics (some data)).trend = trendSpec (valuesOf data))
    ∧ (calculateVelocityMetrics (some c5samples)).trend = "Increasing" := by
  constructor
  · intro data hne
    have hlen : ¬ data.length = 0 := by simpa [List.length_eq_zero] using hne
    unfold calculateVelocityMetrics trendSpec
    simp only [if_neg hlen]
    by_cases h2 : 2 ≤ (valuesOf data).length
    · simp [h2]
    · have hrec : ¬ (2 ≤ (valuesOf data).length - ((valuesOf data).length - 2)
          ∧ 1 ≤ (valuesOf data).length - 2) := by omega
      simp [h2, hrec]
  · norm_num [calculateVelocityMetrics, c5samples, valuesOf, hasStoryPoints,
      jsTruthyNum, jgt, jlt, jmul, jdiv, jadd, jsum, jround1]

/-- C5 witness: the general part of `C5_trend_rule` applied to the
concrete sample list of the design document. -/
theorem C5_trend_rule_witness :
    (calculateVelocityMetrics (some c5samples)).trend = trendSpec (valuesOf c5samples) :=
  C5_trend_rule.1 c5samples (by simp [c5samples])

/-- C6: the empty (or missing) sample list yields exactly the sentinel
structure `{average: 0, unit: "items", trend: "No data available",
data: []}`, the trend string preserved verbatim. -/
theorem C6_empty_sentinel :
    calculateVelocityMetrics (some []) =
      { average := some 0, unit := "items", trend := "No data available", data := [] }
    ∧ calculateVelocityMetrics none =
      { average := some 0, unit := "items", trend := "No data available", data := [] } :=
  ⟨rfl, rfl⟩

/-- C10: with one sample carrying positive story points and another
sample lacking the `storyPoints` field, the unit is "story points" and
the computed average is NaN (modelled by `none`): the average is taken
over the `storyPoints` field of every sample once any sample has
positive story points, and `undefined` poisons the sum. -/
theorem C10_nan_average :
    (calculateVelocityMetrics (some c10samples)).unit = "story points"
    ∧ (calculateVelocityMetrics (some c10samples)).average = none := by
  constructor <;>
    norm_num [calculateVelocityMetrics, c10samples, valuesOf, hasStoryPoints,
      jsTruthyNum, jgt, jlt, jmul, jdiv, jadd, jsum, jround1]

/-! ## Issue records (`categorizeJiraCliIssues`, lines 73-169)

Timestamps are milliseconds since the Unix epoch; a missing timestamp is
`none` and the `moment` shim replaces it by the current time (`jsDate`).
The source reads the clock twice on entry (`now` and `oneWeekAgo`); both
reads are modelled from the same instant `now`. -/

/-- The `issue.epic` reference as stored by the normalizer and read by
`groupIssuesByEpic` (`{key, summary, url, progress}`).  A missing `key`
is modelled by `""` (falsy in the source's `issue.epic && issue.epic.key`
test); the `progress` payload is uninterpreted here. -/
structure EpicRef where
  key : String
  summary : Option String
  url : Option String
  progress : Option String
deriving Repr, DecidableEq

/-- A raw jira-cli issue, with exactly the fields the categorizer and
grouper read.  `type` is the alternative spelling of the issue type that
the source consults as `issue.issuetype || issue.type`. -/
structure Issue where
  key : String
  summary : Option String
  status : Option String
  assignee : Option String
  priority : Option String
  issuetype : Option String
  type : Option String
  created : Option Int
  updated : Option Int
  resolution : Option String
  url : Option String
  epic : Option EpicRef
  parent : Option String
deriving Repr, DecidableEq

/-- The normalized record built at lines 107-120: a fresh object holding
a fixed subset of the raw fields, with `issuetype := issue.issuetype ||
issue.type`. -/
structure NormalizedIssue where
  key : String
  summary : Option String
  status : Option String
  assignee : Option String
  priority : Option String
  issuetype : Option String
  created : Option Int
  updated : Option Int
  resolution : Option String
  url : Option String
  epic : Option EpicRef
  parent : Option String
deriving Repr, DecidableEq

/-- Lines 107-120: the normalization copy. -/
def normalizeIssue (issue : Issue) : NormalizedIssue :=
  { key := issue.key, summary := issue.summary, status := issue.status,
    assignee := issue.assignee, priority := issue.priority,
    issuetype := jsOrOpt issue.issuetype issue.type,
    created := issue.created, updated := issue.updated,
    resolution := issue.resolution, url := issue.url,
    epic := issue.epic, parent := issue.parent }

/-- The record pushed to `needsAttention` (lines 153-157): the
normalized issue spread together with `lastUpdated` and `reason`. -/
structure AttentionIssue extends NormalizedIssue where
  lastUpdated : String
  reason : String
deriving Repr, DecidableEq

/-! ### Date formatting (`moment(...).format('YYYY-MM-DD')`)

The shim formats via `Date.prototype.toISOString`, i.e. the proleptic
Gregorian calendar in UTC.  `civilFromDays` is the standard
days-since-epoch to civil-date conversion (valid for all modern dates;
the embedding does not zero-pad years outside 1000-9999). -/

/-- Convert a day count since 1970-01-01 to `(year, month, day)`. -/
def civilFromDays (z0 : Int) : Int × Int × Int :=
  let z := z0 + 719468
  let era := Int.fdiv z 146097
  let doe := z - era * 146097
  let yoe := Int.fdiv (doe - Int.fdiv doe 1460 + Int.fdiv doe 36524 - Int.fdiv doe 146096) 365
  let y := yoe + era * 400
  let doy := doe - (365 * yoe + Int.fdiv yoe 4 - Int.fdiv yoe 100)
  let mp := Int.fdiv (5 * doy + 2) 153
  let d := doy - Int.fdiv (153 * mp + 2) 5 + 1
  let m := mp + if mp < 10 then 3 else -9
  (y + (if m ≤ 2 then 1 else 0), m, d)

/-- Zero-pad a month/day number to two digits. -/
def pad2 (n : Int) : String :=
  if n < 10 then "0" ++ toString n else toString n

/-- `moment(ms).format('YYYY-MM-DD')`: the UTC date part of the ISO
string. -/
def formatDay (ms : Int) : String :=
  let ymd := civilFromDays (Int.fdiv ms 86400000)
  toString ymd.1 ++ "-" ++ pad2 ymd.2.1 ++ "-" ++ pad2 ymd.2.2

/-! ### Categorization predicates (lines 103-159) -/

/-- Line 103: `(issue.status || '').toLowerCase()`. -/
def statusLower (issue : Issue) : String :=
  strLower (jsOrStr issue.status "")

/-- Line 104: `(issue.issuetype || issue.type || '').toLowerCase()`. -/
def typeLower (issue : Issue) : String :=
  strLower (jsOrStr (jsOrOpt issue.issuetype issue.type) "")

/-- Line 123: `issueType === 'epic' || 'initiative' || 'theme'`. -/
def isEpicLevel (issue : Issue) : Bool :=
  typeLower issue == "epic" || typeLower issue == "initiative" || typeLower issue == "theme"

/-- Line 131: `created.isAfter(oneWeekAgo)` with `oneWeekAgo` seven days
before `now`. -/
def newThisWeekTest (now : Int) (issue : Issue) : Bool :=
  decide (now - 7 * 86400000 < jsDate now issue.created)

/-- Lines 137-138: non-null resolution and a done-vocabulary substring
in the lower-cased status. -/
def completionTest (issue : Issue) : Bool :=
  jsTruthyStr issue.resolution &&
    (["done", "resolved", "closed", "fixed"].any fun s => strIncludes (statusLower issue) s)

/-- Line 144: in-progress vocabulary substring test (its `else if`
position after the completion test is in `categorizeStep`). -/
def inProgressTest (issue : Issue) : Bool :=
  ["in progress", "in review", "testing", "code review"].any fun s =>
    strIncludes (statusLower issue) s

/-- Line 151: `now.diff(updated, 'days')` — floor of the millisecond
difference over one day. -/
def daysSinceUpdate (now : Int) (issue : Issue) : Int :=
  Int.fdiv (now - jsDate now issue.updated) 86400000

/-- Line 152: `daysSinceUpdate > 3 && !issue.resolution`. -/
def attentionTest (now : Int) (issue : Issue) : Bool :=
  decide (3 < daysSinceUpdate now issue) && !(jsTruthyStr issue.resolution)

/-- Lines 153-157: the attention record. -/
def attentionOf (now : Int) (issue : Issue) : AttentionIssue :=
  { toNormalizedIssue := normalizeIssue issue,
    lastUpdated := formatDay (jsDate now issue.updated),
    reason := if 7 < daysSinceUpdate now issue then "Stale (no updates for over a week)"
              else "No recent updates" }

/-! ### The categorized structure (lines 77-97 and 162-168) -/

/-- One bucket group (`epics`, and the legacy flat lists). -/
structure Buckets where
  completed : List NormalizedIssue
  inProgress : List NormalizedIssue
  newIssues : List NormalizedIssue
  needsAttention : List AttentionIssue
deriving Repr, DecidableEq

/-- The `subEpicItems` bucket group, which also tracks `all`. -/
structure SubBuckets where
  completed : List NormalizedIssue
  inProgress : List NormalizedIssue
  newIssues : List NormalizedIssue
  needsAttention : List AttentionIssue
  all : List NormalizedIssue
deriving Repr, DecidableEq

/-- The mutable `categorized` accumulator of the `forEach` loop. -/
structure Categorized where
  epics : Buckets
  subEpicItems : SubBuckets
  completed : List NormalizedIssue
  inProgress : List NormalizedIssue
  newIssues : List NormalizedIssue
  needsAttention : List AttentionIssue
deriving Repr, DecidableEq

/-- The returned structure (lines 162-168): the accumulator spread
together with the template-compatibility aliases. -/
structure CategorizedResult where
  epics : Buckets
  subEpicItems : SubBuckets
  completed : List NormalizedIssue
  inProgress : List NormalizedIssue
  newIssues : List NormalizedIssue
  needsAttention : List AttentionIssue
  completedIssues : List NormalizedIssue
  inProgressIssues : List NormalizedIssue
  issuesNeedingAttention : List AttentionIssue
deriving Repr, DecidableEq

/-- Lines 77-97: every bucket starts empty. -/
def initCategorized : Categorized :=
  { epics := { completed := [], inProgress := [], newIssues := [], needsAttention := [] },
    subEpicItems := { completed := [], inProgress := [], newIssues := [], needsAttention := [],
                      all := [] },
    completed := [], inProgress := [], newIssues := [], needsAttention := [] }

/-- Lines 139-141/146-148 target selection: push the normalized issue to
the level bucket picked by `isEpicLevel` and to the legacy list. -/
def pushCompleted (acc : Categorized) (lvl : Bool) (ni : NormalizedIssue) : Categorized :=
  if lvl then
    { acc with epics := { acc.epics with completed := acc.epics.completed ++ [ni] },
               completed := acc.completed ++ [ni] }
  else
    { acc with
        subEpicItems := { acc.subEpicItems with completed := acc.subEpicItems.completed ++ [ni] },
        completed := acc.completed ++ [ni] }

/-- In-progress push (lines 145-147). -/
def pushInProgress (acc : Categorized) (lvl : Bool) (ni : NormalizedIssue) : Categorized :=
  if lvl then
    { acc with epics := { acc.epics with inProgress := acc.epics.inProgress ++ [ni] },
               inProgress := acc.inProgress ++ [ni] }
  else
    { acc with
        subEpicItems := { acc.subEpicItems with inProgress := acc.subEpicItems.inProgress ++ [ni] },
        inProgress := acc.inProgress ++ [ni] }

/-- New-issue push (lines 132-134). -/
def pushNewIssue (acc : Categorized) (lvl : Bool) (ni : NormalizedIssue) : Categorized :=
  if lvl then
    { acc with epics := { acc.epics with newIssues := acc.epics.newIssues ++ [ni] },
               newIssues := acc.newIssues ++ [ni] }
  else
    { acc with
        subEpicItems := { acc.subEpicItems with newIssues := acc.subEpicItems.newIssues ++ [ni] },
        newIssues := acc.newIssues ++ [ni] }

/-- Attention push (lines 158-159). -/
def pushAttention (acc : Categorized) (lvl : Bool) (ai : AttentionIssue) : Categorized :=
  if lvl then
    { acc with
        epics := { acc.epics with needsAttention := acc.epics.needsAttention ++ [ai] },
        needsAttention := acc.needsAttention ++ [ai] }
  else
    { acc with
        subEpicItems :=
          { acc.subEpicItems with needsAttention := acc.subEpicItems.needsAttention ++ [ai] },
        needsAttention := acc.needsAttention ++ [ai] }

/-- One iteration of the `issues.forEach` body (lines 100-160), in the
source's statement order: the sub-epic `all` push, the new-this-week
check, the completion / else-if in-progress chain, and the independent
attention check. -/
def categorizeStep (now : Int) (acc : Categorized) (issue : Issue) : Categorized :=
  let ni := normalizeIssue issue
  let lvl := isEpicLevel issue
  let acc0 := if lvl then acc
    else { acc with
             subEpicItems := { acc.subEpicItems with all := acc.subEpicItems.all ++ [ni] } }
  let acc1 := if newThisWeekTest now issue then pushNewIssue acc0 lvl ni else acc0
  let acc2 :=
    if completionTest issue then pushCompleted acc1 lvl ni
    else if inProgressTest issue then pushInProgress acc1 lvl ni
    else acc1
  if attentionTest now issue then pushAttention acc2 lvl (attentionOf now issue) else acc2

/-- `categorizeJiraCliIssues(issues)` (lines 73-169).  The second
argument models the execution-time clock read at entry (`const now =
moment()`); the source exposes no such parameter, see
`categorizeJiraCliIssues_params`. -/
def categorizeJiraCliIssues (issues : List Issue) (now : Int) : CategorizedResult :=
  let c := issues.foldl (categorizeStep now) initCategorized
  { epics := c.epics, subEpicItems := c.subEpicItems,
    completed := c.completed, inProgress := c.inProgress,
    newIssues := c.newIssues, needsAttention := c.needsAttention,
    completedIssues := c.completed, inProgressIssues := c.inProgress,
    issuesNeedingAttention := c.needsAttention }

/-- The formal parameter list of the source function
`categorizeJiraCliIssues(issues)` at line 73: exactly one parameter. -/
def categorizeJiraCliIssues_params : List String := ["issues"]

/-- The per-field effect of one `forEach` iteration, with the `else if`
chain flattened into guards. -/
def categorizeStepFlat (now : Int) (acc : Categorized) (issue : Issue) : Categorized :=
  let ni := normalizeIssue issue
  let lvl := isEpicLevel issue
  { epics :=
      { completed := acc.epics.completed ++
          if lvl && completionTest issue then [ni] else [],
        inProgress := acc.epics.inProgress ++
          if lvl && (!completionTest issue && inProgressTest issue) then [ni] else [],
        newIssues := acc.epics.newIssues ++
          if lvl && newThisWeekTest now issue then [ni] else [],
        needsAttention := acc.epics.needsAttention ++
          if lvl && attentionTest now issue then [attentionOf now issue] else [] },
    subEpicItems :=
      { completed := acc.subEpicItems.completed ++
          if !lvl && completionTest issue then [ni] else [],
        inProgress := acc.subEpicItems.inProgress ++
          if !lvl && (!completionTest issue && inProgressTest issue) then [ni] else [],
        newIssues := acc.subEpicItems.newIssues ++
          if !lvl && newThisWeekTest now issue then [ni] else [],
        needsAttention := acc.subEpicItems.needsAttention ++
          if !lvl && attentionTest now issue then [attentionOf now issue] else [],
        all := acc.subEpicItems.all ++ if !lvl then [ni] else [] },
    completed := acc.completed ++ if completionTest issue then [ni] else [],
    inProgress := acc.inProgress ++
      if !completionTest issue && inProgressTest issue then [ni] else [],
    newIssues := acc.newIssues ++ if newThisWeekTest now issue then [ni] else [],
    needsAttention := acc.needsAttention ++
      if attentionTest now issue then [attentionOf now issue] else [] }

lemma categorizeStep_eq_flat (now : Int) (acc : Categorized) (issue : Issue) :
    categorizeStep now acc issue = categorizeStepFlat now acc issue := by
  unfold categorizeStep categorizeStepFlat
    pushCompleted pushInProgress pushNewIssue pushAttention
  by_cases h1 : isEpicLevel issue <;>
  by_cases h2 : newThisWeekTest now issue <;>
  by_cases h3 : completionTest issue <;>
  by_cases h4 : inProgressTest issue <;>
  by_cases h5 : attentionTest now issue <;>
  simp [h1, h2, h3, h4, h5]

/-- Closed form of the `forEach` fold: every bucket is a filter of the
input mapped through the normalizing copy. -/
lemma categorize_foldl (now : Int) (issues : List Issue) : ∀ acc : Categorized,
    issues.foldl (categorizeStep now) acc =
      { epics :=
          { completed := acc.epics.completed ++
              ((issues.filter fun i => isEpicLevel i && completionTest i).map normalizeIssue),
            inProgress := acc.epics.inProgress ++
              ((issues.filter fun i =>
                  isEpicLevel i && (!completionTest i && inProgressTest i)).map normalizeIssue),
            newIssues := acc.epics.newIssues ++
              ((issues.filter fun i => isEpicLevel i && newThisWeekTest now i).map normalizeIssue),
            needsAttention := acc.epics.needsAttention ++
              ((issues.filter fun i => isEpicLevel i && attentionTest now i).map
                (attentionOf now)) },
        subEpicItems :=
          { completed := acc.subEpicItems.completed ++
              ((issues.filter fun i => !isEpicLevel i && completionTest i).map normalizeIssue),
            inProgress := acc.subEpicItems.inProgress ++
              ((issues.filter fun i =>
                  !isEpicLevel i && (!completionTest i && inProgressTest i)).map normalizeIssue),
            newIssues := acc.subEpicItems.newIssues ++
              ((issues.filter fun i => !isEpicLevel i && newThisWeekTest now i).map normalizeIssue),
            needsAttention := acc.subEpicItems.needsAttention ++
              ((issues.filter fun i => !isEpicLevel i && attentionTest now i).map
                (attentionOf now)),
            all := acc.subEpicItems.all ++
              ((issues.filter fun i => !isEpicLevel i).map normalizeIssue) },
        completed := acc.completed ++ ((issues.filter completionTest).map normalizeIssue),
        inProgress := acc.inProgress ++
          ((issues.filter fun i => !completionTest i && inProgressTest i).map normalizeIssue),
        newIssues := acc.newIssues ++
          ((issues.filter (newThisWeekTest now)).map normalizeIssue),
        needsAttention := acc.needsAttention ++
          ((issues.filter (attentionTest now)).map (attentionOf now)) } := by
  induction issues with
  | nil => intro acc; simp
  | cons i rest ih =>
    intro acc
    rw [List.foldl_cons, ih, categorizeStep_eq_flat]
    unfold categorizeStepFlat
    by_cases h1 : isEpicLevel i <;>
    by_cases h2 : newThisWeekTest now i <;>
    by_cases h3 : completionTest i <;>
    by_cases h4 : inProgressTest i <;>
    by_cases h5 : attentionTest now i <;>
    simp [h1, h2, h3, h4, h5, List.filter_cons]

/-- The function-level closed form: `categorizeJiraCliIssues` applied to
the empty accumulator, aliases included. -/
lemma categorize_buckets (issues : List Issue) (now : Int) :
    categorizeJiraCliIssues issues now =
      { epics :=
          { completed :=
              (issues.filter fun i => isEpicLevel i && completionTest i).map normalizeIssue,
            inProgress :=
              (issues.filter fun i =>
                isEpicLevel i && (!completionTest i && inProgressTest i)).map normalizeIssue,
            newIssues :=
              (issues.filter fun i => isEpicLevel i && newThisWeekTest now i).map normalizeIssue,
            needsAttention :=
              (issues.filter fun i => isEpicLevel i && attentionTest now i).map
                (attentionOf now) },
        subEpicItems :=
          { completed :=
              (issues.filter fun i => !isEpicLevel i && completionTest i).map normalizeIssue,
            inProgress :=
              (issues.filter fun i =>
                !isEpicLevel i && (!completionTest i && inProgressTest i)).map normalizeIssue,
            newIssues :=
              (issues.filter fun i => !isEpicLevel i && newThisWeekTest now i).map normalizeIssue,
            needsAttention :=
              (issues.filter fun i => !isEpicLevel i && attentionTest now i).map
                (attentionOf now),
            all := (issues.filter fun i => !isEpicLevel i).map normalizeIssue },
        completed := (issues.filter completionTest).map normalizeIssue,
        inProgress :=
          (issues.filter fun i => !completionTest i && inProgressTest i).map normalizeIssue,
        newIssues := (issues.filter (newThisWeekTest now)).map normalizeIssue,
        needsAttention := (issues.filter (attentionTest now)).map (attentionOf now),
        completedIssues := (issues.filter completionTest).map normalizeIssue,
        inProgressIssues :=
          (issues.filter fun i => !completionTest i && inProgressTest i).map normalizeIssue,
        issuesNeedingAttention :=
          (issues.filter (attentionTest now)).map (attentionOf now) } := by
  unfold categorizeJiraCliIssues
  rw [categorize_foldl]
  simp [initCategorized]

/-- C7 (amended): `categorizeJiraCliIssues` is a total function (so it
never throws), it does not touch the input list, and every output
bucket equals a filter of the input mapped through the normalizing copy
constructor (`normalizeIssue`, or `attentionOf` for attention entries,
which additionally carry `lastUpdated` and `reason`).  Thus every output
record is a fresh normalized copy of an input member — not, as the
original claim states, the input record itself (see
`C7_counterexample`). -/
theorem C7_records_are_normalized_copies :
    ∀ (issues : List Issue) (now : Int),
      (categorizeJiraCliIssues issues now).completed =
        (issues.filter completionTest).map normalizeIssue
      ∧ (categorizeJiraCliIssues issues now).inProgress =
          (issues.filter fun i => !completionTest i && inProgressTest i).map normalizeIssue
      ∧ (categorizeJiraCliIssues issues now).newIssues =
          (issues.filter (newThisWeekTest now)).map normalizeIssue
      ∧ (categorizeJiraCliIssues issues now).needsAttention =
          (issues.filter (attentionTest now)).map (attentionOf now)
      ∧ (categorizeJiraCliIssues issues now).completedIssues =
          (categorizeJiraCliIssues issues now).completed
      ∧ (categorizeJiraCliIssues issues now).inProgressIssues =
          (categorizeJiraCliIssues issues now).inProgress
      ∧ (categorizeJiraCliIssues issues now).issuesNeedingAttention =
          (categorizeJiraCliIssues issues now).needsAttention
      ∧ (categorizeJiraCliIssues issues now).epics.completed =
          (issues.filter fun i => isEpicLevel i && completionTest i).map normalizeIssue
      ∧ (categorizeJiraCliIssues issues now).epics.inProgress =
          (issues.filter fun i =>
            isEpicLevel i && (!completionTest i && inProgressTest i)).map normalizeIssue
      ∧ (categorizeJiraCliIssues issues now).epics.newIssues =
          (issues.filter fun i => isEpicLevel i && newThisWeekTest now i).map normalizeIssue
      ∧ (categorizeJiraCliIssues issues now).epics.needsAttention =
          (issues.filter fun i => isEpicLevel i && attentionTest now i).map (attentionOf now)
      ∧ (categorizeJiraCliIssues issues now).subEpicItems.completed =
          (issues.filter fun i => !isEpicLevel i && completionTest i).map normalizeIssue
      ∧ (categorizeJiraCliIssues issues now).subEpicItems.inProgress =
          (issues.filter fun i =>
            !isEpicLevel i && (!completionTest i && inProgressTest i)).map normalizeIssue
      ∧ (categorizeJiraCliIssues issues now).subEpicItems.newIssues =
          (issues.filter fun i => !isEpicLevel i && newThisWeekTest now i).map normalizeIssue
      ∧ (categorizeJiraCliIssues issues now).subEpicItems.needsAttention =
          (issues.filter fun i => !isEpicLevel i && attentionTest now i).map (attentionOf now)
      ∧ (categorizeJiraCliIssues issues now).subEpicItems.all =
          (issues.filter fun i => !isEpicLevel i).map normalizeIssue := by
  intro issues now
  rw [categorize_buckets]
  refine ⟨rfl, rfl, rfl, rfl, rfl, rfl, rfl, rfl, rfl, rfl, rfl, rfl, rfl, rfl, rfl, rfl⟩

/-- The issue used to refute the original C7: `issuetype` is absent and
`type` carries the value, so normalization rewrites the field. -/
def c7issue : Issue :=
  { key := "PROJ-7", summary := some "Field-shape change",
    status := some "Done", assignee := none, priority := none,
    issuetype := none, type := some "Bug",
    created := some 1000000000000, updated := some 1000000000000,
    resolution := some "Fixed", url := none, epic := none, parent := none }

/-- C7 counterexample: the single record in the `completed` bucket
carries `issuetype = some "Bug"` while the single input record has
`issuetype = none` — so the output record cannot be (reference-)equal to
any member of the input list: it is a rewritten copy. -/
theorem C7_counterexample :
    ((categorizeJiraCliIssues [c7issue] 1759276800000).completed.map
        (fun r => r.issuetype)) = [some "Bug"]
    ∧ [c7issue].map (fun i => i.issuetype) = [none] := by
  constructor <;> decide

/-- A reference instant for concrete scenarios:
2025-10-01T00:00:00Z in epoch milliseconds. -/
def c1now : Int := 1759276800000

/-- The design document's scenario issue: status "Done", resolution
"Fixed", updated 10 days before `c1now`. -/
def c1issue : Issue :=
  { key := "PROJ-1", summary := some "Completed work",
    status := some "Done", assignee := none, priority := some "Major",
    issuetype := some "Story", type := none,
    created := some (c1now - 100 * 86400000),
    updated := some (c1now - 10 * 86400000),
    resolution := some "Fixed", url := none, epic := none, parent := none }

/-- C1 counterexample: the scenario issue (status "Done", resolution
"Fixed", updated 10 days ago) lands in `completed` but the
`needsAttention` bucket stays empty — it does not appear in both
buckets as claimed, because the attention rule requires
`!issue.resolution`. -/
theorem C1_counterexample :
    (categorizeJiraCliIssues [c1issue] c1now).completed = [normalizeIssue c1issue]
    ∧ (categorizeJiraCliIssues [c1issue] c1now).needsAttention = [] := by
  constructor <;> decide

/-- C1 (amended): the scenario issue is placed in `completed` only; the
attention rule (`daysSinceUpdate > 3 && !issue.resolution`) excludes
every issue whose `resolution` is set, so no record in `needsAttention`
ever carries a truthy resolution. -/
theorem C1_attention_excludes_resolved :
    ∀ (issues : List Issue) (now : Int) (r : AttentionIssue),
      r ∈ (categorizeJiraCliIssues issues now).needsAttention →
      jsTruthyStr r.resolution = false := by
  intro issues now r hr
  rw [categorize_buckets] at hr
  simp only [List.mem_map, List.mem_filter] at hr
  obtain ⟨i, ⟨-, hattn⟩, rfl⟩ := hr
  simp only [attentionTest, Bool.and_eq_true, Bool.not_eq_true'] at hattn
  simpa [attentionOf, normalizeIssue] using hattn.2

/-- A stale, unresolved issue used to instantiate
`C1_attention_excludes_resolved`. -/
def c1openIssue : Issue :=
  { key := "PROJ-2", summary := some "Stale unresolved work",
    status := some "To Do", assignee := none, priority := none,
    issuetype := some "Task", type := none,
    created := some (c1now - 100 * 86400000),
    updated := some (c1now - 10 * 86400000),
    resolution := none, url := none, epic := none, parent := none }

/-- C1 witness: the amended rule applied to a concrete stale issue that
does reach `needsAttention`. -/
theorem C1_attention_excludes_resolved_witness :
    jsTruthyStr (attentionOf c1now c1openIssue).resolution = false :=
  C1_attention_excludes_resolved [c1openIssue] c1now (attentionOf c1now c1openIssue) (by decide)

/-- C2 counterexample: the source signature
`categorizeJiraCliIssues(issues)` (line 73) declares no `now`
parameter, so a reference timestamp cannot be injected by the caller. -/
theorem C2_counterexample :
    categorizeJiraCliIssues_params.contains "now" = false := by decide

/-- C2 (amended): the source function takes only the issue list — the
reference "now" timestamp is read from the clock at execution time and
is not injectable by the caller.  Modelling that clock read as an
explicit argument, the output is fully determined by the issue list and
that single instant. -/
theorem C2_now_not_injectable :
    categorizeJiraCliIssues_params = ["issues"]
    ∧ ∀ (issues : List Issue) (n1 n2 : Int), n1 = n2 →
        categorizeJiraCliIssues issues n1 = categorizeJiraCliIssues issues n2 :=
  ⟨rfl, fun _ _ _ h => by rw [h]⟩

/-- C2 witness: determinism at a concrete input. -/
theorem C2_now_not_injectable_witness :
    categorizeJiraCliIssues [c1issue] c1now = categorizeJiraCliIssues [c1issue] c1now :=
  C2_now_not_injectable.2 [c1issue] c1now c1now rfl

/-- `completionTest` only consults fields that normalization preserves
(`status` and `resolution`), so equal normalized records have equal
completion verdicts. -/
lemma completionTest_eq_of_normalize {i j : Issue}
    (h : normalizeIssue i = normalizeIssue j) :
    completionTest i = completionTest j := by
  have hs : i.status = j.status := congrArg NormalizedIssue.status h
  have hr : i.resolution = j.resolution := congrArg NormalizedIssue.resolution h
  simp [completionTest, statusLower, hs, hr]

/-- C8: an issue passing both the completion test and the in-progress
test is placed in `completed` and not in `inProgress` — the two tests
form an if/else-if chain with completion first. -/
theorem C8_completion_wins :
    ∀ (issues : List Issue) (now : Int) (i : Issue), i ∈ issues →
      completionTest i = true → inProgressTest i = true →
      normalizeIssue i ∈ (categorizeJiraCliIssues issues now).completed
      ∧ normalizeIssue i ∉ (categorizeJiraCliIssues issues now).inProgress := by
  intro issues now i hmem hdone hprog
  rw [categorize_buckets]
  constructor
  · exact List.mem_map_of_mem _ (List.mem_filter.mpr ⟨hmem, hdone⟩)
  · intro hcon
    simp only [List.mem_map, List.mem_filter] at hcon
    obtain ⟨j, ⟨-, hjt⟩, hnorm⟩ := hcon
    simp only [Bool.and_eq_true, Bool.not_eq_true'] at hjt
    have hne := hjt.1
    rw [completionTest_eq_of_normalize hnorm, hdone] at hne
    exact Bool.noConfusion hne

/-- An issue passing both tests: lower-cased status contains "done" and
"in review", and the resolution is set. -/
def c8issue : Issue :=
  { key := "PROJ-8", summary := some "Both vocabularies",
    status := some "Done - In Review", assignee := none, priority := none,
    issuetype := some "Story", type := none,
    created := some (c1now - 50 * 86400000),
    updated := some (c1now - 1 * 86400000),
    resolution := some "Fixed", url := none, epic := none, parent := none }

/-- C8 witness: the chain at a concrete double-matching issue. -/
theorem C8_completion_wins_witness :
    normalizeIssue c8issue ∈ (categorizeJiraCliIssues [c8issue] c1now).completed
    ∧ normalizeIssue c8issue ∉ (categorizeJiraCliIssues [c8issue] c1now).inProgress :=
  C8_completion_wins [c8issue] c1now c8issue (by decide) (by decide) (by decide)

/-! ## Epic grouping (`groupIssuesByEpic`, lines 350-403) -/

/-- The `epic` summary record of an EpicGroup (lines 366-374). -/
structure EpicInfo where
  key : String
  summary : Option String
  url : Option String
  status : Option String
  priority : Option String
  assignee : Option String
  progress : Option String
deriving Repr, DecidableEq

/-- One epic group: summary info plus its related issues. -/
structure EpicGroup where
  epic : EpicInfo
  relatedIssues : List Issue
deriving Repr, DecidableEq

/-- The result of `groupIssuesByEpic` (lines 398-402). -/
structure EpicGrouping where
  epicsWithIssues : List EpicGroup
  unassociatedIssues : List Issue
deriving Repr, DecidableEq

/-- The loop state: the insertion-ordered `epicGroups` map, the
`unassociatedIssues` list and the `processedIssues` set. -/
structure GroupState where
  epicGroups : List (String × EpicGroup)
  unassociatedIssues : List Issue
  processedIssues : List String
deriving Repr, DecidableEq

/-- Lines 365-375: the group created on first encounter of a parent
key; `status`/`priority` start as "Unknown", to be overwritten if the
epic issue itself is found; `progress := issue.epic.progress || null`. -/
def newEpicGroup (r : EpicRef) : EpicGroup :=
  { epic := { key := r.key, summary := r.summary, url := r.url,
              status := some "Unknown", priority := some "Unknown",
              assignee := none,
              progress := if jsTruthyStr r.progress then r.progress else none },
    relatedIssues := [] }

/-- `epicGroups.has(k)`. -/
def mapHas (m : List (String × EpicGroup)) (k : String) : Bool :=
  m.any fun p => p.1 == k

/-- In-place update of `epicGroups.get(k)` (the map's keys are unique,
so updating the first match is the JavaScript `Map` behaviour). -/
def mapUpdate (m : List (String × EpicGroup)) (k : String) (f : EpicGroup → EpicGroup) :
    List (String × EpicGroup) :=
  match m with
  | [] => []
  | p :: rest => if p.1 == k then (p.1, f p.2) :: rest else p :: mapUpdate rest k f

/-- Lines 380-384: overwrite the group's epic metadata from the epic
issue itself. -/
def setEpicData (issue : Issue) (g : EpicGroup) : EpicGroup :=
  { g with epic := { g.epic with status := issue.status, priority := issue.priority,
                                 assignee := issue.assignee } }

/-- Lines 386-391: append as a related issue unless an issue with the
same key is already in the group. -/
def addRelated (issue : Issue) (g : EpicGroup) : EpicGroup :=
  if (g.relatedIssues.find? fun ex => ex.key == issue.key).isSome then g
  else { g with relatedIssues := g.relatedIssues ++ [issue] }

/-- One iteration of the `issues.forEach` body (lines 355-392):
duplicate keys are skipped via `processedIssues`; an issue with a
(truthy) `epic.key` find-or-creates its group and either overwrites the
epic metadata (when it *is* the epic) or is appended as a related
issue; all other issues go to `unassociatedIssues`. -/
def groupStep (st : GroupState) (issue : Issue) : GroupState :=
  if st.processedIssues.contains issue.key then st
  else
    let st1 : GroupState := { st with processedIssues := issue.key :: st.processedIssues }
    match issue.epic with
    | some er =>
      if er.key ≠ "" then
        let st2 := if mapHas st1.epicGroups er.key then st1
          else { st1 with epicGroups := st1.epicGroups ++ [(er.key, newEpicGroup er)] }
        if issue.key == er.key then
          { st2 with epicGroups := mapUpdate st2.epicGroups er.key (setEpicData issue) }
        else
          { st2 with epicGroups := mapUpdate st2.epicGroups er.key (addRelated issue) }
      else { st1 with unassociatedIssues := st1.unassociatedIssues ++ [issue] }
    | none => { st1 with unassociatedIssues := st1.unassociatedIssues ++ [issue] }

/-- `groupIssuesByEpic` (lines 350-403): fold over the issues, then
return the map's values in insertion order plus the unassociated
list. -/
def groupIssuesByEpic (issues : List Issue) : EpicGrouping :=
  let st := issues.foldl groupStep { epicGroups := [], unassociatedIssues := [],
                                     processedIssues := [] }
  { epicsWithIssues := st.epicGroups.map fun p => p.2,
    unassociatedIssues := st.unassociatedIssues }

/-- How many of a group's related issues carry key `k`. -/
def groupKeyCount (g : EpicGroup) (k : String) : Nat :=
  g.relatedIssues.countP fun i => i.key == k

/-- Total occurrences of key `k` in the output: across every group's
`relatedIssues` and across `unassociatedIssues`. -/
def outKeyCount (out : EpicGrouping) (k : String) : Nat :=
  (out.unassociatedIssues.countP fun i => i.key == k)
  + ((out.epicsWithIssues.map fun g => groupKeyCount g k).sum)

/-- Occurrences of key `k` in an intermediate loop state. -/
def stateKeyCount (st : GroupState) (k : String) : Nat :=
  (st.unassociatedIssues.countP fun i => i.key == k)
  + ((st.epicGroups.map fun p => groupKeyCount p.2 k).sum)

/-- Modelled from the claim's words: duplicates are silently dropped,
first occurrence (of each key) wins. -/
def dedupByKey (seen : List String) : List Issue → List Issue
  | [] => []
  | i :: rest =>
    if seen.contains i.key then dedupByKey seen rest
    else i :: dedupByKey (i.key :: seen) rest


lemma groupStep_skip (st : GroupState) (i : Issue)
    (hc : st.processedIssues.contains i.key = true) : groupStep st i = st := by
  unfold groupStep
  exact if_pos hc

lemma groupStep_processed_of_not (st : GroupState) (i : Issue)
    (hc : ¬ st.processedIssues.contains i.key = true) :
    (groupStep st i).processedIssues = i.key :: st.processedIssues := by
  unfold groupStep
  rw [if_neg hc]
  cases he : i.epic
  · rfl
  · dsimp only
    split_ifs <;> rfl

lemma groupKeyCount_setEpicData (i : Issue) (g : EpicGroup) (k : String) :
    groupKeyCount (setEpicData i g) k = groupKeyCount g k := rfl

lemma groupKeyCount_addRelated (i : Issue) (g : EpicGroup) (k : String) :
    groupKeyCount (addRelated i g) k ≤ groupKeyCount g k + (if i.key == k then 1 else 0) := by
  unfold addRelated
  split
  · exact Nat.le_add_right _ _
  · simp only [groupKeyCount, List.countP_append, List.countP_cons, List.countP_nil]
    split_ifs <;> simp

lemma sum_mapUpdate_le (k0 : String) (f : EpicGroup → EpicGroup) (k : String) (d : Nat)
    (hf : ∀ g, groupKeyCount (f g) k ≤ groupKeyCount g k + d) :
    ∀ m : List (String × EpicGroup),
      (((mapUpdate m k0 f).map fun p => groupKeyCount p.2 k).sum)
        ≤ ((m.map fun p => groupKeyCount p.2 k).sum) + d := by
  intro m
  induction m with
  | nil => simp [mapUpdate]
  | cons p rest ih =>
    unfold mapUpdate
    by_cases hp : p.1 == k0
    · have := hf p.2
      simp only [hp, if_true, List.map_cons, List.sum_cons]
      omega
    · simp only [hp, List.map_cons, List.sum_cons, Bool.false_eq_true, if_false]
      omega

lemma sum_append_newGroup (m : List (String × EpicGroup)) (er : EpicRef) (k : String) :
    (((m ++ [(er.key, newEpicGroup er)]).map fun p => groupKeyCount p.2 k).sum)
      = ((m.map fun p => groupKeyCount p.2 k).sum) := by
  simp [newEpicGroup, groupKeyCount]

lemma groupStep_count_le (st : GroupState) (i : Issue) (k : String) :
    stateKeyCount (groupStep st i) k
      ≤ stateKeyCount st k + (if i.key == k then 1 else 0) := by
  by_cases hc : st.processedIssues.contains i.key
  · rw [groupStep_skip st i hc]
    exact Nat.le_add_right _ _
  · unfold groupStep
    rw [if_neg hc]
    cases he : i.epic with
    | none =>
      simp only [stateKeyCount, List.countP_append, List.countP_cons, List.countP_nil]
      split_ifs <;> omega
    | some er =>
      dsimp only
      by_cases hk : er.key ≠ ""
      · rw [if_pos hk]
        by_cases hik : (i.key == er.key) = true
        · rw [if_pos hik]
          by_cases hm : mapHas st.epicGroups er.key = true
          · rw [if_pos hm]
            simp only [stateKeyCount]
            have h1 := sum_mapUpdate_le er.key (setEpicData i) k 0
              (fun g => by simp [groupKeyCount_setEpicData]) st.epicGroups
            omega
          · rw [if_neg hm]
            simp only [stateKeyCount]
            have h1 := sum_mapUpdate_le er.key (setEpicData i) k 0
              (fun g => by simp [groupKeyCount_setEpicData])
              (st.epicGroups ++ [(er.key, newEpicGroup er)])
            have h2 := sum_append_newGroup st.epicGroups er k
            omega
        · rw [if_neg hik]
          by_cases hm : mapHas st.epicGroups er.key = true
          · rw [if_pos hm]
            simp only [stateKeyCount]
            have h1 := sum_mapUpdate_le er.key (addRelated i) k
              (if i.key == k then 1 else 0)
              (fun g => groupKeyCount_addRelated i g k) st.epicGroups
            omega
          · rw [if_neg hm]
            simp only [stateKeyCount]
            have h1 := sum_mapUpdate_le er.key (addRelated i) k
              (if i.key == k then 1 else 0)
              (fun g => groupKeyCount_addRelated i g k)
              (st.epicGroups ++ [(er.key, newEpicGroup er)])
            have h2 := sum_append_newGroup st.epicGroups er k
            omega
      · rw [if_neg hk]
        simp only [stateKeyCount, List.countP_append, List.countP_cons, List.countP_nil]
        split_ifs <;> omega

/-- Loop invariant: every key occurs at most once across the state's
groups and unassociated list, and any key that occurs at all has been
recorded as processed. -/
def GroupInv (st : GroupState) : Prop :=
  ∀ k : String, stateKeyCount st k ≤ 1
    ∧ (1 ≤ stateKeyCount st k → st.processedIssues.contains k = true)

lemma groupStep_inv (st : GroupState) (i : Issue) (h : GroupInv st) :
    GroupInv (groupStep st i) := by
  intro k
  by_cases hc : st.processedIssues.contains i.key = true
  · rw [groupStep_skip st i hc]
    exact h k
  · have hle := groupStep_count_le st i k
    have hp := groupStep_processed_of_not st i hc
    by_cases hik : (i.key == k) = true
    · have hkey : i.key = k := by simpa using hik
      have h0 : stateKeyCount st k = 0 := by
        by_contra hpos
        have h1 : 1 ≤ stateKeyCount st k := Nat.one_le_iff_ne_zero.mpr hpos
        have h2 := (h k).2 h1
        rw [← hkey] at h2
        exact hc h2
      simp only [hik, if_true] at hle
      constructor
      · omega
      · intro _
        rw [hp]
        simp [List.contains_cons, hkey]
    · simp only [hik, if_false, Bool.false_eq_true] at hle
      constructor
      · have := (h k).1
        omega
      · intro hone
        have hold : 1 ≤ stateKeyCount st k := by omega
        have hcont := (h k).2 hold
        have hmem : k ∈ st.processedIssues := by simpa using hcont
        rw [hp]
        simp [List.contains_cons, hmem]

lemma group_foldl_inv (issues : List Issue) :
    ∀ st : GroupState, GroupInv st → GroupInv (issues.foldl groupStep st) := by
  induction issues with
  | nil => intro st h; exact h
  | cons i rest ih =>
    intro st h
    exact ih (groupStep st i) (groupStep_inv st i h)

/-- Folding over the raw list and over the key-deduplicated list reach
the same state: a repeated key is skipped by `processedIssues`. -/
lemma group_foldl_dedup (issues : List Issue) :
    ∀ st : GroupState,
      issues.foldl groupStep st = (dedupByKey st.processedIssues issues).foldl groupStep st := by
  induction issues with
  | nil => intro st; rfl
  | cons i rest ih =>
    intro st
    by_cases hc : st.processedIssues.contains i.key = true
    · rw [List.foldl_cons, groupStep_skip st i hc]
      simp only [dedupByKey, hc, if_true]
      exact ih st
    · simp only [dedupByKey, hc, Bool.false_eq_true, if_false, List.foldl_cons]
      have h2 := ih (groupStep st i)
      rw [groupStep_processed_of_not st i hc] at h2
      exact h2

/-- C4: in the output of `groupIssuesByEpic`, every issue key appears at
most once over all groups' `relatedIssues` and `unassociatedIssues`
taken together (so never in two places and never twice in one group),
and duplicate input entries are silently dropped, the first occurrence
of each key winning. -/
theorem C4_key_uniqueness :
    (∀ (issues : List Issue) (k : String), outKeyCount (groupIssuesByEpic issues) k ≤ 1)
    ∧ ∀ issues : List Issue,
        groupIssuesByEpic issues = groupIssuesByEpic (dedupByKey [] issues) := by
  constructor
  · intro issues k
    have hinv : GroupInv (issues.foldl groupStep
        { epicGroups := [], unassociatedIssues := [], processedIssues := [] }) := by
      apply group_foldl_inv
      intro k0
      constructor
      · simp [stateKeyCount]
      · intro hbad
        simp [stateKeyCount] at hbad
    unfold groupIssuesByEpic outKeyCount
    dsimp only
    rw [List.map_map]
    exact (hinv k).1
  · intro issues
    unfold groupIssuesByEpic
    dsimp only
    rw [group_foldl_dedup issues]

/-- The shared parent reference of the C3 scenario. -/
def c3ref : EpicRef :=
  { key := "E-1", summary := some "Epic One", url := some "https://tracker/E-1",
    progress := none }

/-- First child of E-1. -/
def c3a : Issue :=
  { key := "A-1", summary := some "Child one", status := some "In Progress",
    assignee := some "bob", priority := some "Major", issuetype := some "Story", type := none,
    created := some (c1now - 30 * 86400000), updated := some (c1now - 2 * 86400000),
    resolution := none, url := none, epic := some c3ref, parent := none }

/-- Second child of E-1. -/
def c3b : Issue :=
  { key := "A-2", summary := some "Child two", status := some "To Do",
    assignee := none, priority := some "Minor", issuetype := some "Task", type := none,
    created := some (c1now - 20 * 86400000), updated := some (c1now - 1 * 86400000),
    resolution := none, url := none, epic := some c3ref, parent := none }

/-- Third child of E-1, appearing after the epic itself. -/
def c3c : Issue :=
  { key := "A-3", summary := some "Child three", status := some "Done",
    assignee := some "bob", priority := some "Major", issuetype := some "Bug", type := none,
    created := some (c1now - 15 * 86400000), updated := some (c1now - 1 * 86400000),
    resolution := some "Done", url := none, epic := some c3ref, parent := none }

/-- The E-1 epic issue itself (its own `epic.key` equals its key). -/
def c3epic : Issue :=
  { key := "E-1", summary := some "Epic One", status := some "In Progress",
    assignee := some "alice", priority := some "High", issuetype := some "Epic", type := none,
    created := some (c1now - 60 * 86400000), updated := some (c1now - 5 * 86400000),
    resolution := none, url := some "https://tracker/E-1", epic := some c3ref, parent := none }

/-- Three children plus the epic issue itself, the epic in the middle. -/
def c3issues : List Issue := [c3a, c3b, c3epic, c3c]

/-- C3: with three issues parented to "E-1" plus the "E-1" issue itself
in the list, `groupIssuesByEpic` produces exactly one group, whose
`relatedIssues` are exactly the three children in input order; the epic
issue is absorbed into the group's metadata (status, priority,
assignee) and is neither a related issue nor unassociated. -/
theorem C3_epic_absorbed :
    ((groupIssuesByEpic c3issues).epicsWithIssues.map fun g =>
        (g.epic.key, g.epic.status, g.epic.priority, g.epic.assignee, g.relatedIssues)) =
      [("E-1", some "In Progress", some "High", some "alice", [c3a, c3b, c3c])]
    ∧ (groupIssuesByEpic c3issues).unassociatedIssues = [] := by
  constructor <;> decide

/-! ## Work breakdown (`calculateWorkBreakdown`, lines 700-712) -/

/-- The output record of `calculateWorkBreakdown`. -/
structure WorkBreakdown where
  completedPercentage : Int
  inProgressPercentage : Int
  attentionPercentage : Int
deriving Repr, DecidableEq

/-- `calculateWorkBreakdown(categorized)` (lines 700-712): percentage
split over the three alias buckets, all zero when the combined total is
zero. -/
def calculateWorkBreakdown (categorized : CategorizedResult) : WorkBreakdown :=
  let total := categorized.completedIssues.length + categorized.inProgressIssues.length
    + categorized.issuesNeedingAttention.length
  if total = 0 then
    { completedPercentage := 0, inProgressPercentage := 0, attentionPercentage := 0 }
  else
    { completedPercentage := jsRound ((categorized.completedIssues.length : ℚ) / total * 100),
      inProgressPercentage := jsRound ((categorized.inProgressIssues.length : ℚ) / total * 100),
      attentionPercentage :=
        jsRound ((categorized.issuesNeedingAttention.length : ℚ) / total * 100) }

/-- The work-breakdown contract exactly as the design document words
it: each percentage is round(100 × bucket-count / total-of-the-three),
all three forced to 0 when the combined total is 0. -/
def workBreakdownSpec (categorized : CategorizedResult) : WorkBreakdown :=
  let total := categorized.completedIssues.length + categorized.inProgressIssues.length
    + categorized.issuesNeedingAttention.length
  if total = 0 then
    { completedPercentage := 0, inProgressPercentage := 0, attentionPercentage := 0 }
  else
    { completedPercentage := jsRound (100 * (categorized.completedIssues.length : ℚ) / total),
      inProgressPercentage := jsRound (100 * (categorized.inProgressIssues.length : ℚ) / total),
      attentionPercentage :=
        jsRound (100 * (categorized.issuesNeedingAttention.length : ℚ) / total) }

lemma jsRound_pct_bounds (c t : ℕ) (hc : c ≤ t) (ht : 0 < t) :
    0 ≤ jsRound ((c : ℚ) / t * 100) ∧ jsRound ((c : ℚ) / t * 100) ≤ 100 := by
  have htq : (0 : ℚ) < t := by exact_mod_cast ht
  have hcq : (c : ℚ) ≤ t := by exact_mod_cast hc
  have h0 : (0 : ℚ) ≤ (c : ℚ) / t * 100 := by positivity
  have h1 : (c : ℚ) / t * 100 ≤ 100 := by
    have hdiv : (c : ℚ) / t ≤ 1 := (div_le_one htq).mpr hcq
    nlinarith
  unfold jsRound
  constructor
  · have h : ((0 : Int) : ℚ) ≤ (c : ℚ) / t * 100 + 1 / 2 := by push_cast; linarith
    exact Int.le_floor.mpr h
  · have hlt : ((c : ℚ) / t * 100 + 1 / 2) < ((101 : Int) : ℚ) := by push_cast; linarith
    have := Int.floor_lt.mpr hlt
    omega

/-- C9: each percentage equals round(100 × bucket-count /
total-of-the-three-buckets), all three are forced to 0 when that total
is 0 (never NaN or Infinity — the zero case is handled before any
division), and every returned percentage lies in [0, 100]. -/
theorem C9_percentages :
    ∀ cat : CategorizedResult,
      calculateWorkBreakdown cat = workBreakdownSpec cat
      ∧ 0 ≤ (calculateWorkBreakdown cat).completedPercentage
      ∧ (calculateWorkBreakdown cat).completedPercentage ≤ 100
      ∧ 0 ≤ (calculateWorkBreakdown cat).inProgressPercentage
      ∧ (calculateWorkBreakdown cat).inProgressPercentage ≤ 100
      ∧ 0 ≤ (calculateWorkBreakdown cat).attentionPercentage
      ∧ (calculateWorkBreakdown cat).attentionPercentage ≤ 100 := by
  intro cat
  unfold calculateWorkBreakdown workBreakdownSpec
  dsimp only
  by_cases h : cat.completedIssues.length + cat.inProgressIssues.length
      + cat.issuesNeedingAttention.length = 0
  · simp [h]
  · rw [if_neg h, if_neg h]
    have ht : 0 < cat.completedIssues.length + cat.inProgressIssues.length
        + cat.issuesNeedingAttention.length := Nat.pos_of_ne_zero h
    have e : ∀ c t : ℕ, (c : ℚ) / t * 100 = 100 * c / t := by
      intro c t
      rw [div_mul_eq_mul_div, mul_comm]
    have b1 := jsRound_pct_bounds cat.completedIssues.length _ (by omega) ht
    have b2 := jsRound_pct_bounds cat.inProgressIssues.length _ (by omega) ht
    have b3 := jsRound_pct_bounds cat.issuesNeedingAttention.length _ (by omega) ht
    refine ⟨?_, b1.1, b1.2, b2.1, b2.2, b3.1, b3.2⟩
    rw [e, e, e]
